import Mathlib

/-!
Shallow embedding of `src/data/get_top_pr.py` (the CodeBunny training-data
curation script) and proofs about it.

The script crawls a fixed list of GitHub repositories, lists closed pull
requests, filters review comments through a quality predicate, and writes the
accepted (diff hunk, comment body) pairs as training records to an output
file.  External GitHub calls are embedded as data already present in the
input (a pull request carries the outcome of fetching its review comments; a
repository target carries the outcome of looking it up), and the outcome of a
call that may raise is a `Fetch` value mirroring the script's
`except GithubException` / `except Exception` branches.
-/

namespace GetTopPr

/-- Reaction counts exposed on a review comment (`comment.reactions`). -/
structure Reactions where
  total_count : Nat
  plus_one : Nat
deriving DecidableEq

/-- A GitHub user handle; the script only reads `.login`. -/
structure NamedUser where
  login : String
deriving DecidableEq

/-- A review comment as consumed by the script: nullable `body`, author,
reaction counts and the diff hunk the comment is anchored to. -/
structure ReviewComment where
  body : Option String
  user : NamedUser
  reactions : Reactions
  diff_hunk : String
deriving DecidableEq

/-- Outcome of a call to the GitHub client: success, a `GithubException`
carrying an HTTP status code, or any other exception with its message. -/
inductive Fetch (α : Type) where
  | ok : α → Fetch α
  | apiError : Nat → Fetch α
  | otherError : String → Fetch α
deriving DecidableEq

/-- A pull request as consumed by the script: `merged` flag, author, number,
and the outcome of `pr.get_review_comments()`. -/
structure PullRequest where
  merged : Bool
  user : NamedUser
  number : Nat
  review_comments : Fetch (List ReviewComment)
deriving DecidableEq

/-- `PRS_TO_CHECK_PER_REPO = 500`. -/
def PRS_TO_CHECK_PER_REPO : Nat := 500

/-- `MIN_REACTIONS = 2`. -/
def MIN_REACTIONS : Nat := 2

/-- PyGithub's default page size for paginated listings. -/
def DEFAULT_PER_PAGE : Nat := 30

/-- The fixed system prompt set in `main`. -/
def system_prompt : String :=
  "You are a code analysis bot. Summarize the changes in this diff file in a concise, technical, bullet-point format."

/-- One role-tagged message of a training record. -/
structure Message where
  role : String
  content : String
deriving DecidableEq

/-- The JSONL record: an ordered list of messages. -/
structure TrainingExample where
  messages : List Message
deriving DecidableEq

/-- `create_training_example`: formats the data into the record structure. -/
def create_training_example (system_prompt user_content assistant_content : String) :
    TrainingExample :=
  ⟨[⟨"system", system_prompt⟩, ⟨"user", user_content⟩, ⟨"assistant", assistant_content⟩]⟩

/-- The gold-comment quality filter from `main` (lines 83-89).  Python
truthiness of `comment.body` rejects both a missing (`None`) and an empty
body before the other conjuncts are evaluated. -/
def is_high_quality (comment : ReviewComment) (pr_author : String) : Bool :=
  match comment.body with
  | none => false
  | some b =>
      b != "" && decide (50 < b.length) && (comment.user.login != pr_author) &&
        (decide (MIN_REACTIONS ≤ comment.reactions.total_count) ||
         decide (MIN_REACTIONS ≤ comment.reactions.plus_one))

/-- Characterisation of the filter used throughout: acceptance is equivalent
to a present non-empty body longer than 50 characters, a non-self author, and
reaction weight (max of total and plus-one counts) at least `MIN_REACTIONS`. -/
theorem is_high_quality_eq_true_iff (c : ReviewComment) (a : String) :
    is_high_quality c a = true ↔
      (∃ b, c.body = some b ∧ b ≠ "" ∧ 50 < b.length) ∧
        c.user.login ≠ a ∧
        MIN_REACTIONS ≤ max c.reactions.total_count c.reactions.plus_one := by
  cases hb : c.body with
  | none => simp [is_high_quality, hb]
  | some b =>
      simp [is_high_quality, hb, le_max_iff]
      tauto

/-- What one iteration of the PR loop produces: records written, lines
printed, and how many `time.sleep(0.1)` calls ran. -/
structure PRResult where
  examples : List TrainingExample
  logs : List String
  slept : Nat
deriving DecidableEq

def PRResult.append (a b : PRResult) : PRResult :=
  ⟨a.examples ++ b.examples, a.logs ++ b.logs, a.slept + b.slept⟩

def PRResult.empty : PRResult := ⟨[], [], 0⟩

/-- The body of the PR loop (lines 73-116).  `if not pr.merged: continue`
jumps straight to the next iteration, so the skip path also bypasses the
`time.sleep(0.1)` at the bottom of the loop; every merged PR reaches the
sleep, whether its comment listing succeeded or raised. -/
def process_pr (sp : String) (pr : PullRequest) : PRResult :=
  if !pr.merged then PRResult.empty
  else
    let pr_author := pr.user.login
    match pr.review_comments with
    | Fetch.ok comments =>
        ⟨(comments.filter (fun c => is_high_quality c pr_author)).map
            (fun c => create_training_example sp c.diff_hunk (c.body.getD "")),
         [], 1⟩
    | Fetch.apiError 404 =>
        ⟨[], ["Skipping PR (comments not found, likely deleted): " ++ toString pr.number], 1⟩
    | Fetch.apiError _ =>
        ⟨[], ["GitHub API error on PR " ++ toString pr.number], 1⟩
    | Fetch.otherError e =>
        ⟨[], ["An error occurred processing PR " ++ toString pr.number ++ ": " ++ e], 1⟩

/-- `PaginatedList.get_page(page)`: one fixed-size page of the underlying
collection. -/
def get_page (prs : List PullRequest) (per_page page : Nat) : List PullRequest :=
  (prs.drop (page * per_page)).take per_page

/-- Lines 69-72: the script lists closed PRs (the API returns them sorted
most-recently-updated first), then iterates `prs.get_page(0)[:PRS_TO_CHECK_PER_REPO]`:
a single page, sliced to the cap. -/
def crawl (closed_prs : List PullRequest) (per_page max_to_check : Nat) : List PullRequest :=
  (get_page closed_prs per_page 0).take max_to_check

/-- A configured `owner/repo` target together with the outcome of
`g.get_repo(repo_name)` / `repo.get_pulls(...)`: on success, the repository's
closed PRs in the order the API returns them. -/
structure RepoTarget where
  name : String
  lookup : Fetch (List PullRequest)
deriving DecidableEq

/-- The body of the repository loop (lines 63-124): on lookup success, crawl
and process each PR; on failure, print and move on (repo-level `except`). -/
def process_repo (sp : String) (per_page max_to_check : Nat) (r : RepoTarget) : PRResult :=
  match r.lookup with
  | Fetch.ok closed_prs =>
      ((crawl closed_prs per_page max_to_check).map (process_pr sp)).foldr
        PRResult.append PRResult.empty
  | Fetch.apiError 404 =>
      ⟨[], ["Repository not found or access denied: " ++ r.name], 0⟩
  | Fetch.apiError _ =>
      ⟨[], ["GitHub API error on repo " ++ r.name], 0⟩
  | Fetch.otherError e =>
      ⟨[], ["An error occurred processing repo " ++ r.name ++ ": " ++ e], 0⟩

/-- The environment a run observes: the `GITHUB_PAT` variable (absent, or a
possibly empty string), the outcome of the `Github(token)` /
`g.get_user().login` authentication probe, and the configured targets with
their lookup outcomes. -/
structure Env where
  github_pat : Option String
  auth : Fetch String
  repos : List RepoTarget
deriving DecidableEq

/-- Observable outcome of `main`: the records written to the output file
(`none` when the file was never opened), the final counter, whether the
final summary was printed, log lines, and total sleep steps. -/
structure RunResult where
  file_contents : Option (List TrainingExample)
  total_examples_found : Nat
  summary_printed : Bool
  logs : List String
  slept : Nat
deriving DecidableEq

/-- `main` (lines 43-128).  `if not github_token` treats both an unset and an
empty `GITHUB_PAT` as the fatal missing-credential case; an exception from
the authentication probe also returns before the output file is opened.
Otherwise the file is opened and every repository is processed, after which
the summary always prints. -/
def run (per_page : Nat) (env : Env) : RunResult :=
  match env.github_pat with
  | none =>
      ⟨none, 0, false,
       ["FATAL: GITHUB_PAT (Personal Access Token) not found in .env file."], 0⟩
  | some github_token =>
      if github_token = "" then
        ⟨none, 0, false,
         ["FATAL: GITHUB_PAT (Personal Access Token) not found in .env file."], 0⟩
      else
        match env.auth with
        | Fetch.ok login =>
            let results := env.repos.map (process_repo system_prompt per_page PRS_TO_CHECK_PER_REPO)
            let agg := results.foldr PRResult.append PRResult.empty
            ⟨some agg.examples, agg.examples.length, true,
             ("Authenticated as: " ++ login) :: agg.logs, agg.slept⟩
        | Fetch.apiError _ =>
            ⟨none, 0, false, ["Error authenticating with GitHub"], 0⟩
        | Fetch.otherError e =>
            ⟨none, 0, false, ["Error authenticating with GitHub: " ++ e], 0⟩

/-- Python's `open(path, "w")`: the file is truncated on open, discarding
whatever it previously held. -/
def open_mode_w (_prev : List TrainingExample) : List TrainingExample := []

/-- The output file's contents after a run, as a function of its contents
before the run: if the run opened the file (mode `"w"`), the previous
contents are truncated away and the run's records are written; a run that
returned before `open` leaves the file untouched. -/
def final_file (per_page : Nat) (env : Env) (prev : List TrainingExample) :
    List TrainingExample :=
  match (run per_page env).file_contents with
  | some written => open_mode_w prev ++ written
  | none => prev

theorem PRResult.examples_foldr (l : List PRResult) :
    (l.foldr PRResult.append PRResult.empty).examples = (l.map PRResult.examples).flatten := by
  induction l with
  | nil => rfl
  | cons x xs ih => simp [PRResult.append, ih]

theorem PRResult.slept_foldr (l : List PRResult) :
    (l.foldr PRResult.append PRResult.empty).slept = (l.map PRResult.slept).sum := by
  induction l with
  | nil => rfl
  | cons x xs ih => simp [PRResult.append, ih]

/-- Every record produced by one PR-loop iteration comes from a review
comment of that PR that passed the quality filter against the PR's author. -/
theorem process_pr_examples_mem {sp : String} {pr : PullRequest} {ex : TrainingExample}
    (h : ex ∈ (process_pr sp pr).examples) :
    pr.merged = true ∧
      ∃ cs, pr.review_comments = Fetch.ok cs ∧
        ∃ c ∈ cs, is_high_quality c pr.user.login = true ∧
          ex = create_training_example sp c.diff_hunk (c.body.getD "") := by
  unfold process_pr at h
  cases hm : pr.merged with
  | false => rw [hm] at h; simp [PRResult.empty] at h
  | true =>
      rw [hm] at h
      simp only [Bool.not_true, Bool.false_eq_true, if_false] at h
      refine ⟨rfl, ?_⟩
      split at h
      · next cs heq =>
          simp only [List.mem_map, List.mem_filter] at h
          obtain ⟨c, ⟨hcm, hq⟩, rfl⟩ := h
          exact ⟨cs, heq, c, hcm, hq, rfl⟩
      · simp at h
      · simp at h
      · simp at h

/-- A failing comment listing yields no records (the PR-level `except`
branches write nothing). -/
theorem process_pr_error_examples (sp : String) (pr : PullRequest)
    (h : ∀ cs, pr.review_comments ≠ Fetch.ok cs) :
    (process_pr sp pr).examples = [] := by
  unfold process_pr
  cases hm : pr.merged with
  | false => rfl
  | true =>
      simp only [Bool.not_true, Bool.false_eq_true, if_false]
      split
      · next cs heq => exact absurd heq (h cs)
      · rfl
      · rfl
      · rfl

/-- A failing repository lookup yields no records. -/
theorem process_repo_error_examples (sp : String) (per_page max_to_check : Nat)
    (r : RepoTarget) (h : ∀ prs, r.lookup ≠ Fetch.ok prs) :
    (process_repo sp per_page max_to_check r).examples = [] := by
  unfold process_repo
  split
  · next prs heq => exact absurd heq (h prs)
  · rfl
  · rfl
  · rfl

/-- The sleep at the bottom of the PR loop runs exactly for merged PRs: the
`continue` taken for an unmerged PR bypasses it. -/
theorem process_pr_slept (sp : String) (pr : PullRequest) :
    (process_pr sp pr).slept = if pr.merged then 1 else 0 := by
  unfold process_pr
  cases hm : pr.merged with
  | false => rfl
  | true =>
      simp only [Bool.not_true, Bool.false_eq_true, if_false, if_true]
      split <;> rfl

/-- Total sleeps over a crawled page equal the number of merged PRs on it. -/
theorem sum_slept (sp : String) (l : List PullRequest) :
    ((l.map (process_pr sp)).foldr PRResult.append PRResult.empty).slept =
      (l.filter PullRequest.merged).length := by
  induction l with
  | nil => rfl
  | cons x xs ih =>
      by_cases hm : x.merged <;>
        simp [PRResult.append, ih, process_pr_slept, hm, List.filter_cons] <;>
        omega

/-- Every record produced for a repository target comes from a PR on the
single crawled page. -/
theorem process_repo_examples_mem {sp : String} {per_page max_to_check : Nat}
    {r : RepoTarget} {ex : TrainingExample}
    (h : ex ∈ (process_repo sp per_page max_to_check r).examples) :
    ∃ prs, r.lookup = Fetch.ok prs ∧
      ∃ pr ∈ crawl prs per_page max_to_check, ex ∈ (process_pr sp pr).examples := by
  cases hrl : r.lookup with
  | ok prs =>
      refine ⟨prs, rfl, ?_⟩
      unfold process_repo at h
      rw [hrl] at h
      rw [PRResult.examples_foldr] at h
      simp only [List.map_map, List.mem_flatten, List.mem_map, Function.comp] at h
      obtain ⟨l, ⟨pr, hpr, rfl⟩, hex⟩ := h
      exact ⟨pr, hpr, hex⟩
  | apiError s =>
      rw [process_repo_error_examples sp per_page max_to_check r
        (fun prs hh => by rw [hrl] at hh; exact Fetch.noConfusion hh)] at h
      cases h
  | otherError e =>
      rw [process_repo_error_examples sp per_page max_to_check r
        (fun prs hh => by rw [hrl] at hh; exact Fetch.noConfusion hh)] at h
      cases h

/-- Every record in the output file comes from one of the configured
repository targets. -/
theorem run_examples_mem {per_page : Nat} {env : Env} {ex : TrainingExample}
    (h : ex ∈ (run per_page env).file_contents.getD []) :
    ∃ r ∈ env.repos,
      ex ∈ (process_repo system_prompt per_page PRS_TO_CHECK_PER_REPO r).examples := by
  cases hp : env.github_pat with
  | none => simp [run, hp] at h
  | some tok =>
      by_cases ht : tok = ""
      · simp [run, hp, ht] at h
      · cases ha : env.auth with
        | ok login =>
            simp only [run, hp, if_neg ht, ha, Option.getD_some] at h
            rw [PRResult.examples_foldr] at h
            simp only [List.map_map, List.mem_flatten, List.mem_map, Function.comp] at h
            obtain ⟨l, ⟨r, hr, rfl⟩, hex⟩ := h
            exact ⟨r, hr, hex⟩
        | apiError s => simp [run, hp, ht, ha] at h
        | otherError e => simp [run, hp, ht, ha] at h

/-- Inserting a target whose lookup fails anywhere in the target list leaves
the final record counter unchanged. -/
theorem run_total_insert_failed (per_page : Nat) (pat : Option String)
    (auth : Fetch String) (rs1 rs2 : List RepoTarget) (bad : RepoTarget)
    (h : ∀ prs, bad.lookup ≠ Fetch.ok prs) :
    (run per_page ⟨pat, auth, rs1 ++ bad :: rs2⟩).total_examples_found =
      (run per_page ⟨pat, auth, rs1 ++ rs2⟩).total_examples_found := by
  cases pat with
  | none => rfl
  | some tok =>
      by_cases ht : tok = ""
      · simp [run, ht]
      · cases auth with
        | ok login =>
            simp only [run, if_neg ht]
            rw [PRResult.examples_foldr, PRResult.examples_foldr]
            simp [List.map_append, List.flatten_append,
              process_repo_error_examples _ _ _ _ h]
        | apiError s => rfl
        | otherError e => rfl

-- Concrete fixtures used in boundary and scenario theorems.

/-- A 51-character body: just over the length threshold. -/
def body51 : String := String.mk (List.replicate 51 'a')

/-- A 50-character body: exactly at the (exclusive) length threshold. -/
def body50 : String := String.mk (List.replicate 50 'a')

/-- An 80-character body used by qualifying comments in scenarios. -/
def gold_body : String := String.mk (List.replicate 80 'x')

/-- Body length 51, reaction weight exactly `max 2 0 = 2`. -/
def boundary_len51 : ReviewComment := ⟨some body51, ⟨"bob"⟩, ⟨2, 0⟩, "hunk"⟩

/-- Body length 50, reaction weight 2. -/
def boundary_len50 : ReviewComment := ⟨some body50, ⟨"bob"⟩, ⟨2, 0⟩, "hunk"⟩

/-- Body length 51, reaction weight exactly `max 1 1 = 1`. -/
def boundary_weight1 : ReviewComment := ⟨some body51, ⟨"bob"⟩, ⟨1, 1⟩, "hunk"⟩

/-- A qualifying comment: long body, external author, 3 total reactions. -/
def gold_comment : ReviewComment := ⟨some gold_body, ⟨"bob"⟩, ⟨3, 0⟩, "@@ -1 +1 @@"⟩

/-- The record the pipeline builds from `gold_comment`. -/
def gold_example : TrainingExample :=
  create_training_example system_prompt "@@ -1 +1 @@" gold_body

/-- A merged PR whose comment listing raises a 404 `GithubException`. -/
def pr_not_found : PullRequest := ⟨true, ⟨"alice"⟩, 1, Fetch.apiError 404⟩

/-- A merged PR by alice with the single qualifying comment by bob. -/
def pr_gold : PullRequest := ⟨true, ⟨"alice"⟩, 2, Fetch.ok [gold_comment]⟩

/-- An unmerged PR that nevertheless carries a qualifying comment. -/
def pr_unmerged : PullRequest := ⟨false, ⟨"carol"⟩, 9, Fetch.ok [gold_comment]⟩

/-- A merged PR with no comments, used to populate large repositories. -/
def pr_stub : PullRequest := ⟨true, ⟨"alice"⟩, 0, Fetch.ok []⟩

/-- Scenario E: a repository whose crawl returns one PR with a failing
comment listing next to one PR with a qualifying comment. -/
def repo_scenario_e : RepoTarget := ⟨"octo/demo", Fetch.ok [pr_not_found, pr_gold]⟩

/-- A credential is present but the authentication probe raises. -/
def env_auth_fail : Env :=
  ⟨some "token123", Fetch.otherError "boom", [⟨"octo/demo", Fetch.ok [pr_gold]⟩]⟩

/-- A healthy environment whose single repository yields one record. -/
def env_gold : Env := ⟨some "token123", Fetch.ok "me", [⟨"octo/demo", Fetch.ok [pr_gold]⟩]⟩

/-- C1: the Quality Filter accepts a comment iff the body is present and
non-empty, strictly longer than 50 characters, the comment author differs
from the PR author, and max(total reaction count, plus-one count) ≥ 2; in
particular a comment with body length exactly 51 and reaction weight exactly
2 is accepted, one with length exactly 50 is rejected, and one with reaction
weight exactly 1 is rejected. -/
theorem C1_quality_filter_characterisation (c : ReviewComment) (a : String) :
    (is_high_quality c a = true ↔
      (∃ b, c.body = some b ∧ b ≠ "" ∧ 50 < b.length) ∧
        c.user.login ≠ a ∧ 2 ≤ max c.reactions.total_count c.reactions.plus_one) ∧
    is_high_quality boundary_len51 "alice" = true ∧
    is_high_quality boundary_len50 "alice" = false ∧
    is_high_quality boundary_weight1 "alice" = false :=
  ⟨is_high_quality_eq_true_iff c a, by decide, by decide, by decide⟩

/-- C3: the claimed crawl contract fails on the code.  With the default page
size (30), a repository holding 100 closed PRs and `max_to_check = 500`
yields only the 30 PRs of page 0, not `min 500 100 = 100`: line 72 calls
`get_page(0)` once and never requests further pages, despite the
configuration comment announcing pagination up to 500 PRs. -/
theorem C3_crawl_stops_at_first_page :
    (crawl (List.replicate 100 pr_stub) DEFAULT_PER_PAGE PRS_TO_CHECK_PER_REPO).length = 30 ∧
      min PRS_TO_CHECK_PER_REPO 100 = 100 ∧
      (crawl (List.replicate 100 pr_stub) DEFAULT_PER_PAGE PRS_TO_CHECK_PER_REPO).length ≠
        min PRS_TO_CHECK_PER_REPO 100 := by
  refine ⟨?_, by decide, ?_⟩ <;> decide

/-- C4: a pull request whose `merged` flag is false contributes no records,
whatever its comments hold. -/
theorem C4_unmerged_yields_nothing (sp : String) (pr : PullRequest)
    (h : pr.merged = false) : (process_pr sp pr).examples = [] := by
  unfold process_pr
  rw [h]
  rfl

theorem C4_unmerged_yields_nothing_witness :
    pr_unmerged.merged = false ∧ (process_pr system_prompt pr_unmerged).examples = [] :=
  ⟨rfl, C4_unmerged_yields_nothing system_prompt pr_unmerged rfl⟩

/-- C8: the Record Builder is a pure function — two calls on identical
inputs give structurally identical records — and the message triple is
always ordered system, user, assistant with exactly those role tags and with
the inputs as the respective contents. -/
theorem C8_record_builder_deterministic (s u a : String) :
    create_training_example s u a = create_training_example s u a ∧
    (create_training_example s u a).messages.map Message.role =
      ["system", "user", "assistant"] ∧
    (create_training_example s u a).messages.map Message.content = [s, u, a] :=
  ⟨rfl, rfl, rfl⟩

/-- C9 as stated is false: the `continue` taken for an unmerged pull request
jumps past the `time.sleep(0.1)` at the bottom of the loop, so an unmerged
PR in the crawled sequence is followed by no delay step. -/
theorem C9_unmerged_pr_skips_sleep :
    pr_unmerged.merged = false ∧ (process_pr system_prompt pr_unmerged).slept = 0 ∧
      (process_pr system_prompt pr_unmerged).slept ≠ 1 := by
  decide

/-- C9 amended: exactly one delay step follows each merged pull request
(including those whose comment listing raised), and none follows an unmerged
one; over a crawled page the delay count is the number of merged PRs. -/
theorem C9_sleep_only_after_merged :
    (∀ sp pr, (process_pr sp pr).slept = if pr.merged then 1 else 0) ∧
    (∀ sp per_page max_to_check name prs,
      (process_repo sp per_page max_to_check ⟨name, Fetch.ok prs⟩).slept =
        ((crawl prs per_page max_to_check).filter PullRequest.merged).length) :=
  ⟨process_pr_slept, fun sp per_page max_to_check name prs =>
    sum_slept sp (crawl prs per_page max_to_check)⟩

/-- C5: a 404 while listing one PR's comments only skips that PR (with the
dedicated log line), any other error while processing a PR likewise yields
nothing (with its log line), and in the concrete scenario where a sibling PR
of the same repository has one qualifying comment the repository still emits
exactly that one record. -/
theorem C5_pr_failure_isolation :
    (∀ sp pr, pr.merged = true → pr.review_comments = Fetch.apiError 404 →
        (process_pr sp pr).examples = [] ∧
        (process_pr sp pr).logs =
          ["Skipping PR (comments not found, likely deleted): " ++ toString pr.number]) ∧
    (∀ sp pr s, pr.merged = true → pr.review_comments = Fetch.apiError s →
        (process_pr sp pr).examples = []) ∧
    (∀ sp pr e, pr.merged = true → pr.review_comments = Fetch.otherError e →
        (process_pr sp pr).examples = [] ∧
        (process_pr sp pr).logs =
          ["An error occurred processing PR " ++ toString pr.number ++ ": " ++ e]) ∧
    (process_repo system_prompt DEFAULT_PER_PAGE PRS_TO_CHECK_PER_REPO
        repo_scenario_e).examples = [gold_example] := by
  refine ⟨?_, ?_, ?_, by decide⟩
  · intro sp pr hm hrc
    unfold process_pr
    rw [hm, hrc]
    exact ⟨rfl, rfl⟩
  · intro sp pr s hm hrc
    exact process_pr_error_examples sp pr
      (fun cs hh => by rw [hrc] at hh; exact Fetch.noConfusion hh)
  · intro sp pr e hm hrc
    unfold process_pr
    rw [hm, hrc]
    exact ⟨rfl, rfl⟩

theorem C5_pr_failure_isolation_witness :
    pr_not_found.merged = true ∧ pr_not_found.review_comments = Fetch.apiError 404 ∧
      ((process_pr system_prompt pr_not_found).examples = [] ∧
        (process_pr system_prompt pr_not_found).logs =
          ["Skipping PR (comments not found, likely deleted): " ++
            toString pr_not_found.number]) :=
  ⟨rfl, rfl, C5_pr_failure_isolation.1 system_prompt pr_not_found rfl rfl⟩

/-- C6: a failed repository lookup (404 or any other error) contributes no
records; inserting such a target anywhere in the target list leaves the
final counter unchanged; and whenever the credential and authentication
checks pass the final summary is printed, whatever the repositories did. -/
theorem C6_repo_failure_isolation :
    (∀ sp per_page max_to_check name s,
        (process_repo sp per_page max_to_check ⟨name, Fetch.apiError s⟩).examples = []) ∧
    (∀ sp per_page max_to_check name e,
        (process_repo sp per_page max_to_check ⟨name, Fetch.otherError e⟩).examples = []) ∧
    (∀ per_page pat auth rs1 name s rs2,
        (run per_page ⟨pat, auth,
            rs1 ++ (⟨name, Fetch.apiError s⟩ : RepoTarget) :: rs2⟩).total_examples_found =
          (run per_page ⟨pat, auth, rs1 ++ rs2⟩).total_examples_found) ∧
    (∀ per_page pat auth rs1 name e rs2,
        (run per_page ⟨pat, auth,
            rs1 ++ (⟨name, Fetch.otherError e⟩ : RepoTarget) :: rs2⟩).total_examples_found =
          (run per_page ⟨pat, auth, rs1 ++ rs2⟩).total_examples_found) ∧
    (∀ per_page tok login repos, tok ≠ "" →
        (run per_page ⟨some tok, Fetch.ok login, repos⟩).summary_printed = true) := by
  refine ⟨?_, ?_, ?_, ?_, ?_⟩
  · intro sp per_page max_to_check name s
    exact process_repo_error_examples sp per_page max_to_check _
      (fun prs hh => Fetch.noConfusion hh)
  · intro sp per_page max_to_check name e
    exact process_repo_error_examples sp per_page max_to_check _
      (fun prs hh => Fetch.noConfusion hh)
  · intro per_page pat auth rs1 name s rs2
    exact run_total_insert_failed per_page pat auth rs1 rs2 _
      (fun prs hh => Fetch.noConfusion hh)
  · intro per_page pat auth rs1 name e rs2
    exact run_total_insert_failed per_page pat auth rs1 rs2 _
      (fun prs hh => Fetch.noConfusion hh)
  · intro per_page tok login repos h
    simp [run, h]

theorem C6_repo_failure_isolation_witness :
    (("token123" : String) ≠ "") ∧
      (run 30 ⟨some "token123", Fetch.ok "me",
          [⟨"gone/away", Fetch.apiError 404⟩]⟩).summary_printed = true :=
  ⟨by decide, C6_repo_failure_isolation.2.2.2.2 30 "token123" "me"
    [⟨"gone/away", Fetch.apiError 404⟩] (by decide)⟩

/-- C7 as stated is false: a failing authentication probe is a second fatal
condition.  Here the credential is present, the only error is the
authentication exception, a configured repository even holds a qualifying
comment — yet the run opens no output file, writes nothing and prints no
summary instead of degrading to skip-and-continue. -/
theorem C7_auth_failure_also_fatal :
    env_auth_fail.github_pat = some "token123" ∧
      (run DEFAULT_PER_PAGE env_auth_fail).file_contents = none ∧
      (run DEFAULT_PER_PAGE env_auth_fail).summary_printed = false ∧
      (run DEFAULT_PER_PAGE env_auth_fail).total_examples_found = 0 :=
  ⟨rfl, rfl, rfl, rfl⟩

/-- C7 amended: a missing (or empty) credential and a failed authentication
probe are the only fatal conditions — each aborts the run before the output
file is opened — and whenever both checks pass the run reaches the final
summary with an opened output file, whatever errors the repositories hit. -/
theorem C7_fatal_conditions_characterised :
    (∀ per_page auth repos,
        (run per_page ⟨none, auth, repos⟩).file_contents = none ∧
        (run per_page ⟨none, auth, repos⟩).summary_printed = false) ∧
    (∀ per_page auth repos,
        (run per_page ⟨some "", auth, repos⟩).file_contents = none ∧
        (run per_page ⟨some "", auth, repos⟩).summary_printed = false) ∧
    (∀ per_page tok s repos, tok ≠ "" →
        (run per_page ⟨some tok, Fetch.apiError s, repos⟩).file_contents = none ∧
        (run per_page ⟨some tok, Fetch.apiError s, repos⟩).summary_printed = false) ∧
    (∀ per_page tok e repos, tok ≠ "" →
        (run per_page ⟨some tok, Fetch.otherError e, repos⟩).file_contents = none ∧
        (run per_page ⟨some tok, Fetch.otherError e, repos⟩).summary_printed = false) ∧
    (∀ per_page tok login repos, tok ≠ "" →
        (∃ written,
          (run per_page ⟨some tok, Fetch.ok login, repos⟩).file_contents = some written) ∧
        (run per_page ⟨some tok, Fetch.ok login, repos⟩).summary_printed = true) := by
  refine ⟨fun per_page auth repos => ⟨rfl, rfl⟩, fun per_page auth repos => ?_, ?_, ?_, ?_⟩
  · constructor <;> rfl
  · intro per_page tok s repos h
    constructor <;> simp [run, h]
  · intro per_page tok e repos h
    constructor <;> simp [run, h]
  · intro per_page tok login repos h
    refine ⟨⟨((repos.map (process_repo system_prompt per_page
        PRS_TO_CHECK_PER_REPO)).foldr PRResult.append PRResult.empty).examples, ?_⟩, ?_⟩ <;>
      simp [run, h]

theorem C7_fatal_conditions_characterised_witness :
    (("tok" : String) ≠ "") ∧
      ((∃ written,
          (run 30 ⟨some "tok", Fetch.ok "me",
            [⟨"gone/x", Fetch.apiError 403⟩]⟩).file_contents = some written) ∧
        (run 30 ⟨some "tok", Fetch.ok "me",
          [⟨"gone/x", Fetch.apiError 403⟩]⟩).summary_printed = true) :=
  ⟨by decide, C7_fatal_conditions_characterised.2.2.2.2 30 "tok" "me"
    [⟨"gone/x", Fetch.apiError 403⟩] (by decide)⟩

/-- C10: a run that passes the credential and authentication checks opens
the output file in truncating write mode, so the file's final contents do
not depend on what it held before the run — repeated runs overwrite rather
than accumulate. -/
theorem C10_output_truncating_write (per_page : Nat) (tok login : String)
    (repos : List RepoTarget) (prev prev2 : List TrainingExample) (h : tok ≠ "") :
    final_file per_page ⟨some tok, Fetch.ok login, repos⟩ prev =
        final_file per_page ⟨some tok, Fetch.ok login, repos⟩ prev2 ∧
      ∃ written,
        (run per_page ⟨some tok, Fetch.ok login, repos⟩).file_contents = some written ∧
          final_file per_page ⟨some tok, Fetch.ok login, repos⟩ prev = written := by
  have hrun : (run per_page ⟨some tok, Fetch.ok login, repos⟩).file_contents =
      some (((repos.map (process_repo system_prompt per_page
        PRS_TO_CHECK_PER_REPO)).foldr PRResult.append PRResult.empty).examples) := by
    simp [run, h]
  refine ⟨?_, _, hrun, ?_⟩ <;> simp [final_file, hrun, open_mode_w]

theorem C10_output_truncating_write_witness :
    (("token123" : String) ≠ "") ∧
      (final_file 30 ⟨some "token123", Fetch.ok "me",
            [⟨"octo/demo", Fetch.ok [pr_gold]⟩]⟩ [gold_example] =
          final_file 30 ⟨some "token123", Fetch.ok "me",
            [⟨"octo/demo", Fetch.ok [pr_gold]⟩]⟩ [] ∧
        ∃ written,
          (run 30 ⟨some "token123", Fetch.ok "me",
              [⟨"octo/demo", Fetch.ok [pr_gold]⟩]⟩).file_contents = some written ∧
            final_file 30 ⟨some "token123", Fetch.ok "me",
              [⟨"octo/demo", Fetch.ok [pr_gold]⟩]⟩ [gold_example] = written) :=
  ⟨by decide, C10_output_truncating_write 30 "token123" "me"
    [⟨"octo/demo", Fetch.ok [pr_gold]⟩] [gold_example] [] (by decide)⟩

/-- C2: every record in the output stream traces back through the run — to a
configured repository target whose lookup succeeded, a pull request on its
crawled page that is merged and whose comment listing succeeded, and a
review comment of that listing — such that the comment body is present and
non-empty, longer than 50 characters, the comment author differs from that
pull request's author, the reaction weight is at least 2, and the record's
assistant message carries exactly that body (after the system and user
messages). -/
theorem C2_emitted_records_pass_filter (per_page : Nat) (env : Env)
    (ex : TrainingExample) (h : ex ∈ (run per_page env).file_contents.getD []) :
    ∃ r ∈ env.repos, ∃ prs, r.lookup = Fetch.ok prs ∧
      ∃ pr ∈ crawl prs per_page PRS_TO_CHECK_PER_REPO, pr.merged = true ∧
        ∃ cs, pr.review_comments = Fetch.ok cs ∧
          ∃ c ∈ cs, ∃ b, c.body = some b ∧ b ≠ "" ∧ 50 < b.length ∧
            c.user.login ≠ pr.user.login ∧
            2 ≤ max c.reactions.total_count c.reactions.plus_one ∧
            ex.messages =
              [⟨"system", system_prompt⟩, ⟨"user", c.diff_hunk⟩, ⟨"assistant", b⟩] := by
  obtain ⟨r, hr, hex⟩ := run_examples_mem h
  obtain ⟨prs, hlk, pr, hpr, hex2⟩ := process_repo_examples_mem hex
  obtain ⟨hm, cs, hcs, c, hcm, hq, rfl⟩ := process_pr_examples_mem hex2
  obtain ⟨⟨b, hb, hbne, hblen⟩, hauthor, hweight⟩ :=
    (is_high_quality_eq_true_iff c pr.user.login).mp hq
  refine ⟨r, hr, prs, hlk, pr, hpr, hm, cs, hcs, c, hcm, b, hb, hbne, hblen,
    hauthor, hweight, ?_⟩
  simp [create_training_example, hb]

theorem C2_emitted_records_pass_filter_witness :
    gold_example ∈ (run 30 env_gold).file_contents.getD [] ∧
      (∃ r ∈ env_gold.repos, ∃ prs, r.lookup = Fetch.ok prs ∧
        ∃ pr ∈ crawl prs 30 PRS_TO_CHECK_PER_REPO, pr.merged = true ∧
          ∃ cs, pr.review_comments = Fetch.ok cs ∧
            ∃ c ∈ cs, ∃ b, c.body = some b ∧ b ≠ "" ∧ 50 < b.length ∧
              c.user.login ≠ pr.user.login ∧
              2 ≤ max c.reactions.total_count c.reactions.plus_one ∧
              gold_example.messages =
                [⟨"system", system_prompt⟩, ⟨"user", c.diff_hunk⟩,
                  ⟨"assistant", b⟩]) :=
  ⟨by decide, C2_emitted_records_pass_filter 30 env_gold gold_example (by decide)⟩

end GetTopPr
